import Mathlib

/-!
Shallow embedding of the MAA remote-control plugin (src/main.py of
astrbot_plugin_maa) and proofs about its task-dispatch core.

Modelling conventions:
* Python dicts (`self.bindings`, `self.device_to_sender`, `self.task_queues`,
  `self.executed_tasks`, `self.device_last_seen`) are association lists with
  first-match lookup; `d[k] = v` re-inserts the key at the front after erasing
  the old entry (key order is never observed by the plugin's logic).
* Python sets of task ids are lists with membership-guarded append.
* `uuid.uuid4()` is modelled as a fresh-id supply driven by a counter field
  `nextId` added to the state; `freshId` is injective and never empty, which
  is the property the source relies on.
* `await request.json()` is modelled as an `Option` request record: `none`
  is the parse failure caught by the handler's `except` branch, and the
  `data.get(key, "")` defaults make every field a plain `String`.
* External effects (channel sends, temp-file writes, scheduled deletions,
  the HTTP response) are recorded as an `Event` trace in the order the
  source performs/awaits them; `asyncio.create_task` is a `scheduleDelete`
  event emitted at the point of scheduling without blocking.
* Exceptions raised by `base64.b64decode` and by the channel send inside
  `_send_screenshot` are modelled by Boolean oracles `decodeOk`/`sendOk`;
  the raised message is the `Option String` error component, caught by the
  `except` branch in `_handle_report_status`.
* `time.time()` is a `now : Nat` parameter; file persistence (`_save_data`,
  `_load_data`) is I/O outside the model, the initial in-memory state is
  the empty one a fresh install starts from.
-/

/-- A queued MAA task, the dict `{"id": ..., "type": ..., "params"?: ...}`
built at src/main.py lines 248-251. -/
structure MaaTask where
  id : String
  type : String
  params : Option String
deriving DecidableEq, Repr

/-- A binding record, the dict `{"device_id": ..., "user_id": ..., "umo": ...}`
stored by `maa_bind` (src/main.py lines 296-300). -/
structure Binding where
  device_id : String
  user_id : String
  umo : String
deriving DecidableEq, Repr

/-- First-match lookup in an association list: Python `d.get(k)`. -/
def dictGet {β : Type} (d : List (String × β)) (k : String) : Option β :=
  match d with
  | [] => none
  | (k', v) :: rest => if k' = k then some v else dictGet rest k

/-- Remove every entry with the given key: Python `del d[k]`. -/
def eraseKey {β : Type} (k : String) : List (String × β) → List (String × β)
  | [] => []
  | (k', v) :: rest => if k' = k then eraseKey k rest else (k', v) :: eraseKey k rest

/-- Python `d[k] = v`: the key now maps to `v`; modelled by erasing the old
entry and re-inserting at the front (key order is unobserved). -/
def dictSet {β : Type} (d : List (String × β)) (k : String) (v : β) :
    List (String × β) :=
  (k, v) :: eraseKey k d

/-- Python `set.add`: append the element unless already present. -/
def insertSet (xs : List String) (x : String) : List String :=
  if x ∈ xs then xs else xs ++ [x]

/-- The in-memory state of the plugin: the five dicts initialised in
`MAAPlugin.__init__` (src/main.py lines 75-83) plus the fresh-id counter
standing in for `uuid.uuid4()`. -/
structure PluginState where
  bindings : List (String × Binding)
  device_to_sender : List (String × String)
  task_queues : List (String × List MaaTask)
  executed_tasks : List (String × List String)
  device_last_seen : List (String × Nat)
  nextId : Nat
deriving DecidableEq, Repr

/-- The empty state a fresh install starts from (no persisted bindings). -/
def initState : PluginState :=
  { bindings := [],
      device_to_sender := [],
      task_queues := [],
      executed_tasks := [],
      device_last_seen := [],
      nextId := 0 }

/-- The id supply standing in for `uuid.uuid4()`: injective and never the
empty string, the two properties the source relies on. -/
def freshId (n : Nat) : String :=
  String.mk (List.replicate (n + 1) 'u')

/-- The device's current queue, `self.task_queues.get(device_id, [])`. -/
def queueOf (s : PluginState) (device : String) : List MaaTask :=
  (dictGet s.task_queues device).getD []

/-- The device's executed-id set, `self.executed_tasks.get(device_id, set())`. -/
def executedOf (s : PluginState) (device : String) : List String :=
  (dictGet s.executed_tasks device).getD []

/-- Registry read `self.bindings.get(operatorId)` (spec: `lookupByOperator`). -/
def lookupByOperator (s : PluginState) (op : String) : Option Binding :=
  dictGet s.bindings op

/-- Registry read `self.device_to_sender.get(deviceId)` (spec: `lookupByDevice`). -/
def lookupByDevice (s : PluginState) (device : String) : Option String :=
  dictGet s.device_to_sender device

/-- Request body of `POST /maa/getTask` after `data.get("device", "")` /
`data.get("user", "")` (src/main.py lines 143-144). -/
structure GetTaskReq where
  device : String
  user : String
deriving DecidableEq, Repr

/-- Request body of `POST /maa/reportStatus` after the four
`data.get(..., "")` defaults (src/main.py lines 176-179). -/
structure ReportReq where
  device : String
  task : String
  status : String
  payload : String
deriving DecidableEq, Repr

/-- Observable effects of `_handle_report_status` and its helpers, recorded
in the order the source performs/awaits them. -/
inductive Event
  | sendText (umo text : String)
  | sendImage (umo text : String)
  | writeTemp
  | scheduleDelete (delay : Nat)
  | respond (status : Nat)
deriving DecidableEq, Repr

/-- Whether an event is the HTTP response being returned. -/
def isRespond : Event → Bool
  | Event.respond _ => true
  | _ => false

/-- Whether an event is a channel send (text or image notification). -/
def isChannelSend : Event → Bool
  | Event.sendText _ _ => true
  | Event.sendImage _ _ => true
  | _ => false

/-- Whether an event is an image notification send. -/
def isImageSend : Event → Bool
  | Event.sendImage _ _ => true
  | _ => false

/-- Whether an event is a text-only notification send. -/
def isTextSend : Event → Bool
  | Event.sendText _ _ => true
  | _ => false

/-- True when some channel send is performed strictly before the HTTP
response event in a trace. -/
def sendBeforeRespond (evs : List Event) : Bool :=
  (evs.takeWhile (fun e => !isRespond e)).any isChannelSend

/-- Result of `_handle_get_task`: HTTP status, the `"tasks"` list of the
JSON response, the debug log lines, and the state after the handler. -/
structure GetTaskResult where
  status : Nat
  tasks : List MaaTask
  logs : List String
  state : PluginState
deriving DecidableEq, Repr

/-- `_handle_get_task` (src/main.py lines 136-167). `req = none` models the
`request.json()` parse failure; otherwise the device check, the
`device_last_seen` touch, the binding lookup (whose `if not sender_id`
check is falsy: a missing entry and an empty-string sender both take the
unbound branch), and the pending filter
`[t for t in tasks if t["id"] not in executed]`. -/
def handle_get_task (req : Option GetTaskReq) (now : Nat) (s : PluginState) :
    GetTaskResult :=
  match req with
  | none => { status := 400, tasks := [], logs := [], state := s }
  | some r =>
    if r.device = "" then
      { status := 400, tasks := [], logs := [], state := s }
    else
      let s1 := { s with device_last_seen := dictSet s.device_last_seen r.device now }
      match dictGet s1.device_to_sender r.device with
      | none =>
        { status := 200, tasks := [],
            logs := ["未绑定设备请求: device=" ++ r.device ++ ", user=" ++ r.user],
            state := s1 }
      | some sender =>
        if sender = "" then
          { status := 200, tasks := [],
              logs := ["未绑定设备请求: device=" ++ r.device ++ ", user=" ++ r.user],
              state := s1 }
        else
          let tasks := (dictGet s1.task_queues r.device).getD []
          let executed := (dictGet s1.executed_tasks r.device).getD []
          let pending := tasks.filter (fun t => !executed.contains t.id)
          { status := 200, tasks := pending, logs := [], state := s1 }

/-- The state mutation of `_handle_report_status` (src/main.py lines
184-193, the spec's `acknowledge`): add the task id to the device's
executed set (creating it if absent) and filter every task with that id
out of the device's queue if the device has a queue. -/
def acknowledge (s : PluginState) (device task : String) : PluginState :=
  let ex := (dictGet s.executed_tasks device).getD []
  let s1 := { s with executed_tasks := dictSet s.executed_tasks device (insertSet ex task) }
  match dictGet s1.task_queues device with
  | none => s1
  | some q =>
    { s1 with task_queues := dictSet s1.task_queues device (q.filter (fun tk => tk.id != task)) }

/-- The payload heuristic `payload and len(payload) > 100` of src/main.py
line 204: a non-empty payload longer than 100 characters is treated as an
embedded base64 screenshot. -/
def treatAsImage (payload : String) : Bool :=
  payload != "" && decide (100 < payload.length)

/-- Default `delay` parameter of `_delete_temp_file` (src/main.py line 237),
used unchanged by the `asyncio.create_task` call at line 235. -/
def deleteDelay : Nat := 30

/-- `_send_screenshot` (src/main.py lines 217-235): decode the base64
payload (`decodeOk` oracle), write the temp file, await the channel send
(`sendOk` oracle), then schedule the deferred deletion with the default
delay. Returns the events performed plus the raised exception, if any
(events already performed are kept when an exception is raised). -/
def send_screenshot (decodeOk sendOk : Bool) (umo payload message : String) :
    List Event × Option String :=
  if !decodeOk then ([], some "b64decode error")
  else
    if !sendOk then
      ([Event.writeTemp, Event.sendImage umo message], some "send error")
    else
      ([Event.writeTemp, Event.sendImage umo message,
        Event.scheduleDelete deleteDelay], none)

/-- `_delete_temp_file` (src/main.py lines 237-244) after its sleep: unlink
the file if it still exists, swallowing (only logging) any exception.
Returns whether the file was deleted and the error surfaced to the caller. -/
def delete_temp_file (fileExists unlinkRaises : Bool) : Bool × Option String :=
  if fileExists then
    if unlinkRaises then (false, none)
    else (true, none)
  else (false, none)

/-- The notification part of `_handle_report_status` (src/main.py lines
195-213): look up the bound sender (skipping a falsy sender id), its
binding, and a truthy `umo`; then either the screenshot path with its
fallback text on exception, or a plain text notification. -/
def notify_events (decodeOk sendOk : Bool) (s : PluginState) (r : ReportReq) :
    List Event :=
  match dictGet s.device_to_sender r.device with
  | none => []
  | some sender =>
    if sender = "" then []
    else
      match dictGet s.bindings sender with
      | none => []
      | some b =>
        if b.umo = "" then []
        else
          let message := "✅ MAA 任务完成\n状态: " ++ r.status
          if treatAsImage r.payload then
            match send_screenshot decodeOk sendOk b.umo r.payload message with
            | (evs, none) => evs
            | (evs, some e) =>
              evs ++ [Event.sendText b.umo (message ++ "\n(截图发送失败: " ++ e ++ ")")]
          else
            [Event.sendText b.umo message]

/-- `_handle_report_status` (src/main.py lines 169-215): protocol checks,
the `acknowledge` mutation, then the notification events followed by the
HTTP 200 response. -/
def handle_report_status (req : Option ReportReq) (decodeOk sendOk : Bool)
    (s : PluginState) : PluginState × List Event :=
  match req with
  | none => (s, [Event.respond 400])
  | some r =>
    if r.device = "" ∨ r.task = "" then (s, [Event.respond 400])
    else
      let s1 := acknowledge s r.device r.task
      (s1, notify_events decodeOk sendOk s1 r ++ [Event.respond 200])

/-- The exempt tuple `("CaptureImage", "CaptureImageNow", "HeartBeat")` of
src/main.py line 259. -/
def exemptTypes : List String := ["CaptureImage", "CaptureImageNow", "HeartBeat"]

/-- `_add_task` (src/main.py lines 246-263): generate a fresh id, append the
task (with `params` only when non-empty), and, when the auto-screenshot
policy is on and the type is not exempt, append a `CaptureImage` task with
its own fresh id. Returns the first task's id and the new state. -/
def add_task (auto : Bool) (s : PluginState) (device ttype params : String) :
    String × PluginState :=
  let task_id := freshId s.nextId
  let task : MaaTask :=
    { id := task_id, type := ttype,
        params := if params = "" then none else some params }
  let q0 := (dictGet s.task_queues device).getD []
  let q1 := q0 ++ [task]
  if auto && !(exemptTypes.contains ttype) then
    let shot : MaaTask := { id := freshId (s.nextId + 1), type := "CaptureImage", params := none }
    (task_id, { s with
                  task_queues := dictSet s.task_queues device (q1 ++ [shot]),
                  nextId := s.nextId + 2 })
  else
    (task_id, { s with
                  task_queues := dictSet s.task_queues device q1,
                  nextId := s.nextId + 1 })

/-- Outcome of the `maa bind` command. -/
inductive BindOutcome
  | ok
  | alreadyBoundByOperator
  | alreadyBoundByDevice
deriving DecidableEq, Repr

/-- `maa_bind` (src/main.py lines 272-311): reject a sender that already has
a binding, then a device already present in the inverse index; otherwise
insert into both indices. (`_save_data` is file I/O outside the model, the
reply text is not modelled.) -/
def maa_bind (s : PluginState) (sender device umo : String) :
    BindOutcome × PluginState :=
  if (dictGet s.bindings sender).isSome then
    (BindOutcome.alreadyBoundByOperator, s)
  else if (dictGet s.device_to_sender device).isSome then
    (BindOutcome.alreadyBoundByDevice, s)
  else
    let b : Binding := { device_id := device, user_id := sender, umo := umo }
    (BindOutcome.ok,
      { s with
          bindings := dictSet s.bindings sender b,
          device_to_sender := dictSet s.device_to_sender device sender })

/-- `maa_unbind` (src/main.py lines 313-334): remove both index entries and
discard the device's queue and executed set. Returns the unbound device id
when the sender was bound. -/
def maa_unbind (s : PluginState) (sender : String) :
    Option String × PluginState :=
  match dictGet s.bindings sender with
  | none => (none, s)
  | some b =>
    (some b.device_id,
      { s with
          device_to_sender := eraseKey b.device_id s.device_to_sender,
          bindings := eraseKey sender s.bindings,
          task_queues := eraseKey b.device_id s.task_queues,
          executed_tasks := eraseKey b.device_id s.executed_tasks })

/-- `maa_stop` (src/main.py lines 461-478): for a bound sender, insert a
fresh `StopTask` task at the head of the device's queue. No screenshot
injection happens on this path. -/
def maa_stop (s : PluginState) (sender : String) : PluginState :=
  match dictGet s.bindings sender with
  | none => s
  | some b =>
    let task : MaaTask := { id := freshId s.nextId, type := "StopTask", params := none }
    let q := (dictGet s.task_queues b.device_id).getD []
    { s with
        task_queues := dictSet s.task_queues b.device_id (task :: q),
        nextId := s.nextId + 1 }

/-- One registry command: the bind/unbind operations of claim C2. -/
inductive RegOp
  | bind (sender device umo : String)
  | unbind (sender : String)
deriving DecidableEq, Repr

/-- State effect of one registry command. -/
def regStep (s : PluginState) : RegOp → PluginState
  | RegOp.bind sender device umo => (maa_bind s sender device umo).2
  | RegOp.unbind sender => (maa_unbind s sender).2

/-- State after a sequence of registry commands. -/
def runRegOps (s : PluginState) (ops : List RegOp) : PluginState :=
  ops.foldl regStep s

/-- Mutual consistency of the two binding indices (the spec's bijection
invariant). -/
def Consistent (s : PluginState) : Prop :=
  (∀ op b, lookupByOperator s op = some b → lookupByDevice s b.device_id = some op) ∧
  (∀ dev op, lookupByDevice s dev = some op →
      ∃ b, lookupByOperator s op = some b ∧ b.device_id = dev)

/-- One dispatch-side operation: a device poll, a device status report
(with the exception oracles of the notification path), or an enqueue.
Bindings are untouched by all three. -/
inductive DispatchOp
  | getTask (device user : String) (now : Nat)
  | report (device task status payload : String) (decodeOk sendOk : Bool)
  | addTask (device ttype params : String)
deriving DecidableEq, Repr

/-- State effect of one dispatch operation. -/
def runOp (auto : Bool) (s : PluginState) : DispatchOp → PluginState
  | DispatchOp.getTask device user now =>
    (handle_get_task (some { device := device, user := user }) now s).state
  | DispatchOp.report device task status payload decodeOk sendOk =>
    (handle_report_status
      (some { device := device, task := task, status := status, payload := payload })
      decodeOk sendOk s).1
  | DispatchOp.addTask device ttype params => (add_task auto s device ttype params).2

/-- State after a sequence of dispatch operations. -/
def runOps (auto : Bool) (s : PluginState) (ops : List DispatchOp) : PluginState :=
  ops.foldl (runOp auto) s

/-- Whether a dispatch operation is the acknowledgment of task `t` on
device `d`. -/
def acksTask (d t : String) : DispatchOp → Bool
  | DispatchOp.report d' t' _ _ _ _ => d' == d && t' == t
  | _ => false

/-- A sample state with one binding, operator `"U"` on device `"D"` with
channel address `"M"`. -/
def sampleBound : PluginState :=
  { bindings := [("U", { device_id := "D", user_id := "U", umo := "M" })],
      device_to_sender := [("D", "U")],
      task_queues := [],
      executed_tasks := [],
      device_last_seen := [],
      nextId := 0 }

/-- A payload one character above the image threshold. -/
def longPayload : String := String.mk (List.replicate 101 'x')

/-! ### Association-list and set lemmas -/

theorem dictGet_dictSet_self {β : Type} (d : List (String × β)) (k : String) (v : β) :
    dictGet (dictSet d k v) k = some v := by
  simp [dictSet, dictGet]

theorem dictGet_eraseKey {β : Type} (k k' : String) (d : List (String × β)) :
    dictGet (eraseKey k d) k' = if k' = k then none else dictGet d k' := by
  induction d with
  | nil => simp [eraseKey, dictGet]
  | cons p rest ih =>
    obtain ⟨a, b⟩ := p
    by_cases hak : a = k
    · rw [eraseKey, if_pos hak, ih]
      by_cases hk : k' = k
      · rw [if_pos hk, if_pos hk]
      · rw [if_neg hk, if_neg hk, dictGet, if_neg]
        intro h
        exact hk (hak ▸ h ▸ rfl)
    · rw [eraseKey, if_neg hak, dictGet]
      by_cases hk : a = k'
      · have hk2 : ¬ k' = k := fun h => hak (hk.trans h)
        rw [if_pos hk, if_neg hk2, dictGet, if_pos hk]
      · rw [if_neg hk, ih, dictGet, if_neg hk]

theorem dictGet_eraseKey_self {β : Type} (k : String) (d : List (String × β)) :
    dictGet (eraseKey k d) k = none := by
  simp [dictGet_eraseKey]

theorem dictGet_eraseKey_ne {β : Type} {k k' : String} (h : k' ≠ k)
    (d : List (String × β)) : dictGet (eraseKey k d) k' = dictGet d k' := by
  simp [dictGet_eraseKey, h]

theorem dictGet_dictSet_ne {β : Type} {k k' : String} (h : k' ≠ k)
    (d : List (String × β)) (v : β) :
    dictGet (dictSet d k v) k' = dictGet d k' := by
  rw [dictSet, dictGet, if_neg (fun hh => h (Eq.symm hh)), dictGet_eraseKey_ne h]

theorem eraseKey_eraseKey {β : Type} (k : String) (d : List (String × β)) :
    eraseKey k (eraseKey k d) = eraseKey k d := by
  induction d with
  | nil => rfl
  | cons p rest ih =>
    obtain ⟨a, b⟩ := p
    by_cases hak : a = k
    · rw [eraseKey, if_pos hak, ih]
    · rw [eraseKey, if_neg hak, eraseKey, if_neg hak, ih]

theorem eraseKey_dictSet_self {β : Type} (k : String) (d : List (String × β)) (v : β) :
    eraseKey k (dictSet d k v) = eraseKey k d := by
  rw [dictSet, eraseKey, if_pos rfl, eraseKey_eraseKey]

theorem dictSet_dictSet_self {β : Type} (k : String) (d : List (String × β)) (v w : β) :
    dictSet (dictSet d k v) k w = dictSet d k w := by
  rw [dictSet, dictSet, eraseKey, if_pos rfl, eraseKey_eraseKey]
  rfl

theorem mem_insertSet {xs : List String} {x y : String} :
    x ∈ insertSet xs y ↔ x ∈ xs ∨ x = y := by
  unfold insertSet
  by_cases h : y ∈ xs
  · rw [if_pos h]
    constructor
    · exact Or.inl
    · rintro (hx | rfl)
      · exact hx
      · exact h
  · rw [if_neg h]
    simp [List.mem_append]

theorem self_mem_insertSet (xs : List String) (x : String) : x ∈ insertSet xs x := by
  rw [mem_insertSet]
  exact Or.inr rfl

theorem insertSet_of_mem {xs : List String} {x : String} (h : x ∈ xs) :
    insertSet xs x = xs := by
  simp [insertSet, h]

theorem filter_idem {α : Type} (p : α → Bool) (l : List α) :
    (l.filter p).filter p = l.filter p := by
  induction l with
  | nil => rfl
  | cons a l ih =>
    by_cases h : p a
    · simp [List.filter_cons, h, ih]
    · simp [List.filter_cons, h, ih]

theorem freshId_ne_empty (n : Nat) : freshId n ≠ "" := by
  intro h
  have h2 := congrArg (fun s => s.data.length) h
  simp [freshId] at h2

theorem freshId_injective : Function.Injective freshId := by
  intro m n h
  have h2 := congrArg (fun s => s.data.length) h
  simpa [freshId] using h2

/-! ### Projection lemmas for the state-mutating operations -/

theorem acknowledge_bindings (s : PluginState) (d t : String) :
    (acknowledge s d t).bindings = s.bindings := by
  simp only [acknowledge]
  split <;> rfl

theorem acknowledge_device_to_sender (s : PluginState) (d t : String) :
    (acknowledge s d t).device_to_sender = s.device_to_sender := by
  simp only [acknowledge]
  split <;> rfl

theorem acknowledge_last_seen (s : PluginState) (d t : String) :
    (acknowledge s d t).device_last_seen = s.device_last_seen := by
  simp only [acknowledge]
  split <;> rfl

theorem acknowledge_nextId (s : PluginState) (d t : String) :
    (acknowledge s d t).nextId = s.nextId := by
  simp only [acknowledge]
  split <;> rfl

theorem executedOf_acknowledge_self (s : PluginState) (d t : String) :
    executedOf (acknowledge s d t) d = insertSet (executedOf s d) t := by
  simp only [acknowledge, executedOf]
  split <;> simp [dictGet_dictSet_self]

theorem executedOf_acknowledge_ne {d d' : String} (h : d' ≠ d) (s : PluginState)
    (t : String) : executedOf (acknowledge s d t) d' = executedOf s d' := by
  simp only [acknowledge, executedOf]
  split <;> simp [dictGet_dictSet_ne h]

theorem queueOf_acknowledge_self (s : PluginState) (d t : String) :
    queueOf (acknowledge s d t) d = (queueOf s d).filter (fun tk => tk.id != t) := by
  simp only [acknowledge, queueOf]
  split
  · next heq =>
    simp [heq]
  · next q heq =>
    simp [heq, dictGet_dictSet_self]

theorem queueOf_acknowledge_ne {d d' : String} (h : d' ≠ d) (s : PluginState)
    (t : String) : queueOf (acknowledge s d t) d' = queueOf s d' := by
  simp only [acknowledge, queueOf]
  split
  · rfl
  · simp [dictGet_dictSet_ne h]

theorem add_task_fst (auto : Bool) (s : PluginState) (device ttype params : String) :
    (add_task auto s device ttype params).1 = freshId s.nextId := by
  simp only [add_task]
  split <;> rfl

theorem add_task_bindings (auto : Bool) (s : PluginState) (device ttype params : String) :
    (add_task auto s device ttype params).2.bindings = s.bindings := by
  simp only [add_task]
  split <;> rfl

theorem add_task_device_to_sender (auto : Bool) (s : PluginState)
    (device ttype params : String) :
    (add_task auto s device ttype params).2.device_to_sender = s.device_to_sender := by
  simp only [add_task]
  split <;> rfl

theorem add_task_executed (auto : Bool) (s : PluginState) (device ttype params : String) :
    (add_task auto s device ttype params).2.executed_tasks = s.executed_tasks := by
  simp only [add_task]
  split <;> rfl

theorem queueOf_add_task_ne {device d' : String} (h : d' ≠ device) (auto : Bool)
    (s : PluginState) (ttype params : String) :
    queueOf (add_task auto s device ttype params).2 d' = queueOf s d' := by
  simp only [add_task, queueOf]
  split <;> simp [dictGet_dictSet_ne h]

theorem queueOf_add_task_inject {auto : Bool} {ttype : String}
    (h : (auto && !(exemptTypes.contains ttype)) = true) (s : PluginState)
    (device params : String) :
    queueOf (add_task auto s device ttype params).2 device
      = queueOf s device ++
        [{ id := freshId s.nextId, type := ttype,
           params := if params = "" then none else some params },
         { id := freshId (s.nextId + 1), type := "CaptureImage", params := none }] := by
  simp only [add_task, queueOf, h, if_pos]
  simp [dictGet_dictSet_self]

theorem queueOf_add_task_plain {auto : Bool} {ttype : String}
    (h : (auto && !(exemptTypes.contains ttype)) = false) (s : PluginState)
    (device params : String) :
    queueOf (add_task auto s device ttype params).2 device
      = queueOf s device ++
        [{ id := freshId s.nextId, type := ttype,
           params := if params = "" then none else some params }] := by
  simp only [add_task, queueOf, h]
  simp [dictGet_dictSet_self]

theorem handle_get_task_state_fields (req : Option GetTaskReq) (now : Nat)
    (s : PluginState) :
    (handle_get_task req now s).state.bindings = s.bindings ∧
    (handle_get_task req now s).state.device_to_sender = s.device_to_sender ∧
    (handle_get_task req now s).state.task_queues = s.task_queues ∧
    (handle_get_task req now s).state.executed_tasks = s.executed_tasks ∧
    (handle_get_task req now s).state.nextId = s.nextId := by
  cases req with
  | none => exact ⟨rfl, rfl, rfl, rfl, rfl⟩
  | some r =>
    simp only [handle_get_task]
    by_cases h : r.device = ""
    · simp [h]
    · simp only [if_neg h]
      split
      · exact ⟨rfl, rfl, rfl, rfl, rfl⟩
      · split <;> exact ⟨rfl, rfl, rfl, rfl, rfl⟩

theorem handle_report_status_none (decodeOk sendOk : Bool) (s : PluginState) :
    handle_report_status none decodeOk sendOk s = (s, [Event.respond 400]) := rfl

theorem handle_report_status_state (r : ReportReq) (decodeOk sendOk : Bool)
    (s : PluginState) :
    (handle_report_status (some r) decodeOk sendOk s).1
      = if r.device = "" ∨ r.task = "" then s else acknowledge s r.device r.task := by
  simp only [handle_report_status]
  split <;> rfl

/-! ### Dispatch-operation preservation lemmas (claim C1) -/

theorem runOp_device_to_sender (auto : Bool) (s : PluginState) (op : DispatchOp) :
    (runOp auto s op).device_to_sender = s.device_to_sender := by
  cases op with
  | getTask d u now => exact (handle_get_task_state_fields (some { device := d, user := u }) now s).2.1
  | report d t st pl a b =>
    rw [runOp, handle_report_status_state]
    split
    · rfl
    · exact acknowledge_device_to_sender s d t
  | addTask d ty pa => exact add_task_device_to_sender auto s d ty pa

theorem runOps_device_to_sender (auto : Bool) (ops : List DispatchOp) :
    ∀ s : PluginState, (runOps auto s ops).device_to_sender = s.device_to_sender := by
  induction ops with
  | nil => intro s; rfl
  | cons op rest ih =>
    intro s
    rw [runOps, List.foldl_cons]
    rw [show List.foldl (runOp auto) (runOp auto s op) rest = runOps auto (runOp auto s op) rest from rfl]
    rw [ih, runOp_device_to_sender]

theorem executedOf_runOp_mono {t d : String} (auto : Bool) (s : PluginState)
    (op : DispatchOp) (h : t ∈ executedOf s d) : t ∈ executedOf (runOp auto s op) d := by
  cases op with
  | getTask d' u now =>
    have hf := (handle_get_task_state_fields (some { device := d', user := u }) now s).2.2.2.1
    rw [runOp]
    unfold executedOf
    rw [hf]
    exact h
  | report d' t' st pl a b =>
    rw [runOp, handle_report_status_state]
    split
    · exact h
    · by_cases hd : d = d'
      · subst hd
        rw [executedOf_acknowledge_self]
        rw [mem_insertSet]
        exact Or.inl h
      · rw [executedOf_acknowledge_ne hd]
        exact h
  | addTask d' ty pa =>
    have hf := add_task_executed auto s d' ty pa
    rw [runOp]
    unfold executedOf
    rw [hf]
    exact h

theorem executedOf_runOps_mono {t d : String} (auto : Bool) (ops : List DispatchOp) :
    ∀ s : PluginState, t ∈ executedOf s d → t ∈ executedOf (runOps auto s ops) d := by
  induction ops with
  | nil => intro s h; exact h
  | cons op rest ih =>
    intro s h
    rw [runOps, List.foldl_cons]
    exact ih (runOp auto s op) (executedOf_runOp_mono auto s op h)

/-- The invariant carried while task `t` is pending on device `d`: the task
record is still in the queue and its id has not been acknowledged. -/
def PendingInv (d t : String) (s : PluginState) : Prop :=
  (∃ task ∈ queueOf s d, task.id = t) ∧ t ∉ executedOf s d

theorem pendingInv_runOp {d t : String} (auto : Bool) (s : PluginState)
    (op : DispatchOp) (hop : acksTask d t op = false) (h : PendingInv d t s) :
    PendingInv d t (runOp auto s op) := by
  obtain ⟨⟨task, htask, hid⟩, hnotex⟩ := h
  cases op with
  | getTask d' u now =>
    have hf := handle_get_task_state_fields (some { device := d', user := u }) now s
    constructor
    · refine ⟨task, ?_, hid⟩
      rw [runOp]
      unfold queueOf
      rw [hf.2.2.1]
      exact htask
    · rw [runOp]
      unfold executedOf
      rw [hf.2.2.2.1]
      exact hnotex
  | report d' t' st pl a b =>
    rw [runOp, handle_report_status_state]
    split
    · exact ⟨⟨task, htask, hid⟩, hnotex⟩
    · by_cases hd : d = d'
      · subst hd
        have hne : t' ≠ t := by
          intro hh
          rw [acksTask] at hop
          simp [hh] at hop
        constructor
        · refine ⟨task, ?_, hid⟩
          rw [queueOf_acknowledge_self, List.mem_filter]
          refine ⟨htask, ?_⟩
          simp only [hid, bne_iff_ne, ne_eq]
          exact fun hh => hne (Eq.symm hh)
        · rw [executedOf_acknowledge_self, mem_insertSet]
          rintro (hin | hEq)
          · exact hnotex hin
          · exact hne (Eq.symm hEq)
      · constructor
        · refine ⟨task, ?_, hid⟩
          rw [queueOf_acknowledge_ne hd]
          exact htask
        · rw [executedOf_acknowledge_ne hd]
          exact hnotex
  | addTask d' ty pa =>
    constructor
    · refine ⟨task, ?_, hid⟩
      by_cases hd : d = d'
      · subst hd
        rw [runOp]
        by_cases hc : (auto && !(exemptTypes.contains ty)) = true
        · rw [queueOf_add_task_inject hc]
          exact List.mem_append_left _ htask
        · rw [queueOf_add_task_plain (Bool.eq_false_iff.mpr hc)]
          exact List.mem_append_left _ htask
      · rw [runOp, queueOf_add_task_ne hd]
        exact htask
    · rw [runOp]
      unfold executedOf
      rw [add_task_executed]
      exact hnotex

theorem pendingInv_runOps {d t : String} (auto : Bool) (ops : List DispatchOp)
    (hops : ∀ op ∈ ops, acksTask d t op = false) :
    ∀ s : PluginState, PendingInv d t s → PendingInv d t (runOps auto s ops) := by
  induction ops with
  | nil => intro s h; exact h
  | cons op rest ih =>
    intro s h
    rw [runOps, List.foldl_cons]
    exact ih (fun o ho => hops o (List.mem_cons_of_mem op ho)) (runOp auto s op)
      (pendingInv_runOp auto s op (hops op (List.mem_cons_self op rest)) h)

theorem handle_get_task_tasks_bound {d : String} (hd : d ≠ "") {s : PluginState}
    {sid : String} (hb : lookupByDevice s d = some sid) (hsne : sid ≠ "")
    (u : String) (now : Nat) :
    (handle_get_task (some { device := d, user := u }) now s).tasks
      = (queueOf s d).filter (fun tk => !((executedOf s d).contains tk.id)) := by
  simp only [handle_get_task, if_neg hd]
  split
  · next heq =>
    rw [lookupByDevice] at hb
    rw [heq] at hb
    exact absurd hb (by simp)
  · next sid2 heq =>
    rw [lookupByDevice] at hb
    rw [heq] at hb
    have hss : sid2 = sid := Option.some_injective _ hb
    have hs2 : ¬ sid2 = "" := by
      rw [hss]
      exact hsne
    rw [if_neg hs2]
    simp [queueOf, executedOf]

theorem handle_get_task_no_executed {d t : String} {s : PluginState}
    (h : t ∈ executedOf s d) (u : String) (now : Nat) :
    ∀ task ∈ (handle_get_task (some { device := d, user := u }) now s).tasks,
      task.id ≠ t := by
  intro task htask
  by_cases hd : d = ""
  · simp only [handle_get_task, hd] at htask
    simp at htask
  · simp only [handle_get_task, if_neg hd] at htask
    revert htask
    split
    · intro htask
      simp at htask
    · split
      · intro htask
        simp at htask
      · intro htask
        rw [List.mem_filter] at htask
        obtain ⟨hmem, hpass⟩ := htask
        intro hidt
        rw [hidt] at hpass
        unfold executedOf at h
        simp [h] at hpass

/-! ### Binding-registry invariant lemmas (claims C2 and C4) -/

theorem maa_bind_operator_bound {s : PluginState} {sender : String}
    (h : (dictGet s.bindings sender).isSome) (device umo : String) :
    maa_bind s sender device umo = (BindOutcome.alreadyBoundByOperator, s) := by
  simp [maa_bind, h]

theorem maa_bind_device_bound {s : PluginState} {sender device : String}
    (h1 : dictGet s.bindings sender = none)
    (h2 : (dictGet s.device_to_sender device).isSome) (umo : String) :
    maa_bind s sender device umo = (BindOutcome.alreadyBoundByDevice, s) := by
  simp [maa_bind, h1, h2]

theorem maa_bind_free {s : PluginState} {sender device : String}
    (h1 : dictGet s.bindings sender = none)
    (h2 : dictGet s.device_to_sender device = none) (umo : String) :
    maa_bind s sender device umo =
      (BindOutcome.ok,
        { s with
            bindings := dictSet s.bindings sender
              { device_id := device, user_id := sender, umo := umo },
            device_to_sender := dictSet s.device_to_sender device sender }) := by
  simp [maa_bind, h1, h2]

theorem maa_unbind_not_bound {s : PluginState} {sender : String}
    (h : dictGet s.bindings sender = none) : maa_unbind s sender = (none, s) := by
  simp [maa_unbind, h]

theorem maa_unbind_bound {s : PluginState} {sender : String} {b : Binding}
    (h : dictGet s.bindings sender = some b) :
    maa_unbind s sender =
      (some b.device_id,
        { s with
            device_to_sender := eraseKey b.device_id s.device_to_sender,
            bindings := eraseKey sender s.bindings,
            task_queues := eraseKey b.device_id s.task_queues,
            executed_tasks := eraseKey b.device_id s.executed_tasks }) := by
  simp [maa_unbind, h]

theorem consistent_init : Consistent initState := by
  constructor
  · intro op b h
    simp [lookupByOperator, initState, dictGet] at h
  · intro dev op h
    simp [lookupByDevice, initState, dictGet] at h

theorem consistent_bind (s : PluginState) (sender device umo : String)
    (hC : Consistent s) : Consistent (maa_bind s sender device umo).2 := by
  by_cases h1 : (dictGet s.bindings sender).isSome
  · rw [maa_bind_operator_bound h1]
    exact hC
  · have h1n : dictGet s.bindings sender = none := Option.not_isSome_iff_eq_none.mp h1
    by_cases h2 : (dictGet s.device_to_sender device).isSome
    · rw [maa_bind_device_bound h1n h2]
      exact hC
    · have h2n : dictGet s.device_to_sender device = none :=
        Option.not_isSome_iff_eq_none.mp h2
      rw [maa_bind_free h1n h2n]
      constructor
      · intro op bnd hop
        simp only [lookupByOperator, lookupByDevice] at *
        by_cases hos : op = sender
        · subst hos
          rw [dictGet_dictSet_self] at hop
          have hbnd : bnd = { device_id := device, user_id := op, umo := umo } :=
            (Option.some_injective _ hop).symm
          rw [hbnd]
          exact dictGet_dictSet_self s.device_to_sender device op
        · rw [dictGet_dictSet_ne hos] at hop
          have hold := hC.1 op bnd hop
          by_cases hdd : bnd.device_id = device
          · rw [hdd] at hold
            rw [lookupByDevice, h2n] at hold
            exact absurd hold (by simp)
          · rw [dictGet_dictSet_ne hdd]
            exact hold
      · intro dev op hdev
        simp only [lookupByOperator, lookupByDevice] at *
        by_cases hdd : dev = device
        · subst hdd
          rw [dictGet_dictSet_self] at hdev
          have hos : op = sender := Option.some_injective _ hdev.symm
          subst hos
          refine ⟨{ device_id := dev, user_id := op, umo := umo }, ?_, rfl⟩
          exact dictGet_dictSet_self s.bindings op _
        · rw [dictGet_dictSet_ne hdd] at hdev
          obtain ⟨b', hb', hbdev⟩ := hC.2 dev op hdev
          rw [lookupByOperator] at hb'
          by_cases hos : op = sender
          · subst hos
            rw [h1n] at hb'
            exact absurd hb' (by simp)
          · refine ⟨b', ?_, hbdev⟩
            rw [dictGet_dictSet_ne hos]
            exact hb'

theorem consistent_unbind (s : PluginState) (sender : String)
    (hC : Consistent s) : Consistent (maa_unbind s sender).2 := by
  rcases hb : dictGet s.bindings sender with _ | b
  · rw [maa_unbind_not_bound hb]
    exact hC
  · rw [maa_unbind_bound hb]
    constructor
    · intro op bnd hop
      simp only [lookupByOperator, lookupByDevice] at *
      by_cases hos : op = sender
      · subst hos
        rw [dictGet_eraseKey_self] at hop
        exact absurd hop (by simp)
      · rw [dictGet_eraseKey_ne hos] at hop
        have hold := hC.1 op bnd hop
        rw [lookupByDevice] at hold
        have hdd : bnd.device_id ≠ b.device_id := by
          intro hh
          rw [hh] at hold
          have hsender := hC.1 sender b hb
          rw [lookupByDevice] at hsender
          rw [hold] at hsender
          exact hos (Option.some_injective _ hsender)
        rw [dictGet_eraseKey_ne hdd]
        exact hold
    · intro dev op hdev
      simp only [lookupByOperator, lookupByDevice] at *
      by_cases hdd : dev = b.device_id
      · subst hdd
        rw [dictGet_eraseKey_self] at hdev
        exact absurd hdev (by simp)
      · rw [dictGet_eraseKey_ne hdd] at hdev
        obtain ⟨b', hb', hbdev⟩ := hC.2 dev op hdev
        rw [lookupByOperator] at hb'
        have hos : op ≠ sender := by
          intro hh
          rw [hh, hb] at hb'
          have hbb : b' = b := Option.some_injective _ hb'.symm
          rw [hbb] at hbdev
          exact hdd hbdev.symm
        refine ⟨b', ?_, hbdev⟩
        rw [dictGet_eraseKey_ne hos]
        exact hb'

theorem consistent_regStep (s : PluginState) (op : RegOp) (hC : Consistent s) :
    Consistent (regStep s op) := by
  cases op with
  | bind sender device umo => exact consistent_bind s sender device umo hC
  | unbind sender => exact consistent_unbind s sender hC

theorem consistent_runRegOps (ops : List RegOp) :
    ∀ s : PluginState, Consistent s → Consistent (runRegOps s ops) := by
  induction ops with
  | nil => intro s h; exact h
  | cons op rest ih =>
    intro s h
    rw [runRegOps, List.foldl_cons]
    exact ih (regStep s op) (consistent_regStep s op h)

/-! ### Acknowledge idempotence lemmas (claim C5) -/

theorem pluginState_ext (a b : PluginState) (h1 : a.bindings = b.bindings)
    (h2 : a.device_to_sender = b.device_to_sender)
    (h3 : a.task_queues = b.task_queues) (h4 : a.executed_tasks = b.executed_tasks)
    (h5 : a.device_last_seen = b.device_last_seen) (h6 : a.nextId = b.nextId) :
    a = b := by
  cases a
  cases b
  simp only [PluginState.mk.injEq]
  exact ⟨h1, h2, h3, h4, h5, h6⟩

theorem acknowledge_executed_tasks (s : PluginState) (d t : String) :
    (acknowledge s d t).executed_tasks
      = dictSet s.executed_tasks d (insertSet (executedOf s d) t) := by
  simp only [acknowledge, executedOf]
  split <;> rfl

theorem acknowledge_task_queues_none {s : PluginState} {d : String}
    (h : dictGet s.task_queues d = none) (t : String) :
    (acknowledge s d t).task_queues = s.task_queues := by
  simp only [acknowledge]
  split
  · rfl
  · next q heq =>
    rw [h] at heq
    exact absurd heq (by simp)

theorem acknowledge_task_queues_some {s : PluginState} {d : String} {q : List MaaTask}
    (h : dictGet s.task_queues d = some q) (t : String) :
    (acknowledge s d t).task_queues
      = dictSet s.task_queues d (q.filter (fun tk => tk.id != t)) := by
  simp only [acknowledge]
  split
  · next heq =>
    rw [h] at heq
    exact absurd heq (by simp)
  · next q2 heq =>
    rw [h] at heq
    have hq : q2 = q := Option.some_injective _ heq.symm
    rw [hq]

theorem acknowledge_idem (s : PluginState) (d t : String) :
    acknowledge (acknowledge s d t) d t = acknowledge s d t := by
  have hexec : (acknowledge (acknowledge s d t) d t).executed_tasks
      = (acknowledge s d t).executed_tasks := by
    rw [acknowledge_executed_tasks (acknowledge s d t) d t,
      executedOf_acknowledge_self, insertSet_of_mem (self_mem_insertSet _ t),
      acknowledge_executed_tasks s d t, dictSet_dictSet_self]
  have hqueues : (acknowledge (acknowledge s d t) d t).task_queues
      = (acknowledge s d t).task_queues := by
    rcases hq : dictGet s.task_queues d with _ | q
    · have h1 : (acknowledge s d t).task_queues = s.task_queues :=
        acknowledge_task_queues_none hq t
      have h2 : dictGet (acknowledge s d t).task_queues d = none := by
        rw [h1]
        exact hq
      rw [acknowledge_task_queues_none h2 t]
    · have h1 : (acknowledge s d t).task_queues
          = dictSet s.task_queues d (q.filter (fun tk => tk.id != t)) :=
        acknowledge_task_queues_some hq t
      have h2 : dictGet (acknowledge s d t).task_queues d
          = some (q.filter (fun tk => tk.id != t)) := by
        rw [h1]
        exact dictGet_dictSet_self _ _ _
      rw [acknowledge_task_queues_some h2 t, filter_idem, h1, dictSet_dictSet_self]
  exact pluginState_ext _ _
    (by rw [acknowledge_bindings, acknowledge_bindings])
    (by rw [acknowledge_device_to_sender, acknowledge_device_to_sender])
    hqueues hexec
    (by rw [acknowledge_last_seen, acknowledge_last_seen])
    (by rw [acknowledge_nextId, acknowledge_nextId])

/-! ### Notification-path lemmas (claims C7, C8, C9) -/

theorem send_screenshot_no_respond (decodeOk sendOk : Bool)
    (umo payload message : String) :
    ∀ e ∈ (send_screenshot decodeOk sendOk umo payload message).1,
      isRespond e = false := by
  intro e he
  cases decodeOk with
  | false => simp [send_screenshot] at he
  | true =>
    cases sendOk with
    | false =>
      simp [send_screenshot] at he
      rcases he with rfl | rfl <;> rfl
    | true =>
      simp [send_screenshot] at he
      rcases he with rfl | rfl | rfl <;> rfl

theorem notify_events_no_respond (decodeOk sendOk : Bool) (s : PluginState)
    (r : ReportReq) : ∀ e ∈ notify_events decodeOk sendOk s r, isRespond e = false := by
  intro e he
  unfold notify_events at he
  split at he
  · simp at he
  · split at he
    · simp at he
    · split at he
      · simp at he
      · split at he
        · simp at he
        · split at he
          · dsimp only at he
            split at he
            · next evs heq =>
              have hfst : evs = (send_screenshot decodeOk sendOk _ r.payload _).1 :=
                (congrArg Prod.fst heq).symm
              exact send_screenshot_no_respond _ _ _ _ _ e (hfst ▸ he)
            · next evs err heq =>
              rw [List.mem_append] at he
              rcases he with he | he
              · have hfst : evs = (send_screenshot decodeOk sendOk _ r.payload _).1 :=
                  (congrArg Prod.fst heq).symm
                exact send_screenshot_no_respond _ _ _ _ _ e (hfst ▸ he)
              · rw [List.mem_singleton] at he
                rw [he]
                rfl
          · dsimp only at he
            rw [List.mem_singleton] at he
            rw [he]
            rfl

theorem notify_events_image {s : PluginState} {r : ReportReq} {sender : String}
    {b : Binding} (hds : dictGet s.device_to_sender r.device = some sender)
    (hsne : ¬ sender = "") (hb : dictGet s.bindings sender = some b)
    (humo : ¬ b.umo = "") (himg : treatAsImage r.payload = true) :
    notify_events true true s r
      = [Event.writeTemp,
         Event.sendImage b.umo ("✅ MAA 任务完成\n状态: " ++ r.status),
         Event.scheduleDelete deleteDelay] := by
  simp [notify_events, hds, hsne, hb, humo, himg, send_screenshot]

theorem notify_events_text (decodeOk sendOk : Bool) {s : PluginState} {r : ReportReq}
    {sender : String} {b : Binding}
    (hds : dictGet s.device_to_sender r.device = some sender)
    (hsne : ¬ sender = "") (hb : dictGet s.bindings sender = some b)
    (humo : ¬ b.umo = "") (himg : treatAsImage r.payload = false) :
    notify_events decodeOk sendOk s r
      = [Event.sendText b.umo ("✅ MAA 任务完成\n状态: " ++ r.status)] := by
  simp [notify_events, hds, hsne, hb, humo, himg]

theorem handle_report_status_events {r : ReportReq} (decodeOk sendOk : Bool)
    (s : PluginState) (hd : ¬ r.device = "") (ht : ¬ r.task = "") :
    (handle_report_status (some r) decodeOk sendOk s).2
      = notify_events decodeOk sendOk (acknowledge s r.device r.task) r
          ++ [Event.respond 200] := by
  simp [handle_report_status, hd, ht]

theorem runOps_append (auto : Bool) (s : PluginState) (l1 l2 : List DispatchOp) :
    runOps auto s (l1 ++ l2) = runOps auto (runOps auto s l1) l2 := by
  simp [runOps, List.foldl_append]

theorem runOps_singleton (auto : Bool) (s : PluginState) (op : DispatchOp) :
    runOps auto s [op] = runOp auto s op := rfl

theorem report_op_executes {d t : String} (hd : ¬ d = "") (ht : ¬ t = "")
    (auto : Bool) (st pl : String) (decodeOk sendOk : Bool) (s : PluginState) :
    t ∈ executedOf (runOp auto s (DispatchOp.report d t st pl decodeOk sendOk)) d := by
  rw [runOp, handle_report_status_state]
  rw [if_neg (by push_neg; exact ⟨hd, ht⟩)]
  rw [executedOf_acknowledge_self]
  exact self_mem_insertSet _ t

/-! ### Claim theorems -/

/-- Claim C1: at-least-once delivery. For a device `d` with a non-empty
id, bound to a sender whose id is non-empty (the source's `if not
sender_id` falsy check treats an empty-string sender as unbound), after
`_add_task` enqueues a task whose fresh id is not already in the executed
set (the uuid-freshness the source relies on), (a) every subsequent
`getTask` poll returns that task across any sequence of dispatch
operations that does not acknowledge it, and (b) once a `reportStatus`
acknowledges that exact id, no later `getTask` poll ever returns a task
with that id again, whatever dispatch operations follow. -/
theorem C1_at_least_once_delivery
    (auto : Bool) (s : PluginState) (d ttype params u sid : String) (now : Nat)
    (hd : d ≠ "")
    (hbound : lookupByDevice s d = some sid)
    (hsne : sid ≠ "")
    (hfresh : (add_task auto s d ttype params).1 ∉ executedOf s d) :
    (∀ ops : List DispatchOp,
        (∀ op ∈ ops, acksTask d (add_task auto s d ttype params).1 op = false) →
        ∃ task ∈ (handle_get_task (some { device := d, user := u }) now
            (runOps auto (add_task auto s d ttype params).2 ops)).tasks,
          task.id = (add_task auto s d ttype params).1) ∧
    (∀ (ops ops2 : List DispatchOp) (st pl : String) (decodeOk sendOk : Bool),
        ∀ task ∈ (handle_get_task (some { device := d, user := u }) now
            (runOps auto
              (runOps auto (add_task auto s d ttype params).2
                (ops ++ [DispatchOp.report d (add_task auto s d ttype params).1
                  st pl decodeOk sendOk]))
              ops2)).tasks,
          task.id ≠ (add_task auto s d ttype params).1) := by
  have ht : (add_task auto s d ttype params).1 = freshId s.nextId :=
    add_task_fst auto s d ttype params
  have htne : ¬ (add_task auto s d ttype params).1 = "" := by
    rw [ht]
    exact freshId_ne_empty s.nextId
  have hP1 : PendingInv d (add_task auto s d ttype params).1
      (add_task auto s d ttype params).2 := by
    constructor
    · by_cases hc : (auto && !(exemptTypes.contains ttype)) = true
      · rw [queueOf_add_task_inject hc]
        refine ⟨{ id := freshId s.nextId, type := ttype,
                    params := if params = "" then none else some params }, ?_, ht.symm⟩
        exact List.mem_append_right _ (List.mem_cons_self _ _)
      · rw [queueOf_add_task_plain (Bool.eq_false_iff.mpr hc)]
        refine ⟨{ id := freshId s.nextId, type := ttype,
                    params := if params = "" then none else some params }, ?_, ht.symm⟩
        exact List.mem_append_right _ (List.mem_cons_self _ _)
    · intro hmem
      apply hfresh
      unfold executedOf at hmem ⊢
      rw [add_task_executed] at hmem
      exact hmem
  have hdts1 : (add_task auto s d ttype params).2.device_to_sender
      = s.device_to_sender := add_task_device_to_sender auto s d ttype params
  constructor
  · intro ops hops
    have hP2 := pendingInv_runOps auto ops hops _ hP1
    obtain ⟨⟨task, htask, hid⟩, hnotex⟩ := hP2
    have hbound2 : lookupByDevice
        (runOps auto (add_task auto s d ttype params).2 ops) d
        = lookupByDevice s d := by
      rw [lookupByDevice, lookupByDevice, runOps_device_to_sender, hdts1]
    rw [handle_get_task_tasks_bound hd (hbound2.trans hbound) hsne u now]
    refine ⟨task, ?_, hid⟩
    rw [List.mem_filter]
    refine ⟨htask, ?_⟩
    rw [hid]
    simp [hnotex]
  · intro ops ops2 st pl decodeOk sendOk task htask
    rw [runOps_append, runOps_singleton] at htask
    have hexec : (add_task auto s d ttype params).1 ∈ executedOf
        (runOp auto (runOps auto (add_task auto s d ttype params).2 ops)
          (DispatchOp.report d (add_task auto s d ttype params).1 st pl decodeOk sendOk))
        d := report_op_executes hd htne auto st pl decodeOk sendOk _
    have hexec2 := executedOf_runOps_mono auto ops2 _ hexec
    exact handle_get_task_no_executed hexec2 u now task htask

/-- Witness for C1 at a concrete bound state: the hypotheses hold (the
device is bound to the non-empty sender `"U"`) and the freshly enqueued
task is returned by the immediately following poll. -/
theorem C1_at_least_once_delivery_w :
    ("D" : String) ≠ "" ∧ lookupByDevice sampleBound "D" = some "U" ∧
    ("U" : String) ≠ "" ∧
    ∃ task ∈ (handle_get_task (some { device := "D", user := "" }) 0
        (runOps false (add_task false sampleBound "D" "LinkStart" "").2 [])).tasks,
      task.id = (add_task false sampleBound "D" "LinkStart" "").1 :=
  ⟨by decide, by decide, by decide,
   (C1_at_least_once_delivery false sampleBound "D" "LinkStart" "" "" "U" 0
      (by decide) (by decide) (by decide) (by decide)).1 []
      (by intro op hop; exact absurd hop (List.not_mem_nil op))⟩

/-- Claim C2: bijection invariant of the binding registry. After every
sequence of bind/unbind commands from the initial empty state, the
operator index and the device index are mutually consistent: the device
of a bound operator's binding maps back to that operator, every inverse
entry comes from a binding with that device, and no device id appears in
two different operators' bindings (operators key the map, so an operator
has at most one binding by construction). -/
theorem C2_binding_bijection (ops : List RegOp) :
    (∀ op b, lookupByOperator (runRegOps initState ops) op = some b →
        lookupByDevice (runRegOps initState ops) b.device_id = some op) ∧
    (∀ dev op, lookupByDevice (runRegOps initState ops) dev = some op →
        ∃ b, lookupByOperator (runRegOps initState ops) op = some b ∧
          b.device_id = dev) ∧
    (∀ op1 op2 b1 b2, lookupByOperator (runRegOps initState ops) op1 = some b1 →
        lookupByOperator (runRegOps initState ops) op2 = some b2 →
        b1.device_id = b2.device_id → op1 = op2) := by
  have hC := consistent_runRegOps ops initState consistent_init
  refine ⟨hC.1, hC.2, ?_⟩
  intro op1 op2 b1 b2 h1 h2 hdev
  have k1 := hC.1 op1 b1 h1
  have k2 := hC.1 op2 b2 h2
  rw [hdev] at k1
  rw [k1] at k2
  exact Option.some_injective _ k2

/-- Witness for C2: after binding operator `"U"` to device `"D"`, the
round trip through both indices returns `"U"`. -/
theorem C2_binding_bijection_w :
    lookupByDevice (runRegOps initState [RegOp.bind "U" "D" "M"]) "D" = some "U" :=
  (C2_binding_bijection [RegOp.bind "U" "D" "M"]).1 "U"
    { device_id := "D", user_id := "U", umo := "M" } (by decide)

/-- Claim C3 (counterexample): the claim says every enqueue of a
non-exempt type, whatever its priority, yields two queued tasks. But the
head-priority `maa stop` command inserts a `StopTask` — a type outside the
exempt set — and the queue gains exactly one task, with no `CaptureImage`
injected, while the same type enqueued through `_add_task` with the
policy on does get the injection. -/
theorem C3_auto_screenshot_counterexample :
    "StopTask" ∉ exemptTypes ∧
    (queueOf (maa_stop sampleBound "U") "D").map MaaTask.type = ["StopTask"] ∧
    (queueOf (maa_stop sampleBound "U") "D").length = 1 ∧
    (queueOf (add_task true sampleBound "D" "StopTask" "").2 "D").map MaaTask.type
      = ["StopTask", "CaptureImage"] := by
  decide

/-- Claim C3 (amended): with the auto-screenshot policy enabled, every
Normal-priority enqueue through `_add_task` of a type outside the exempt
set appends exactly two tasks — the requested one plus a `CaptureImage`
task at the tail with a distinct fresh id — while an exempt type appends
exactly one; the injected `CaptureImage` type is itself exempt, so it
never triggers a further injection; and the head-priority `maa stop`
insertion adds exactly one `StopTask` at the head of the queue without
any injection, although `StopTask` is not exempt. -/
theorem C3_auto_screenshot_amended (s : PluginState) (device ttype params : String) :
    (ttype ∉ exemptTypes →
      queueOf (add_task true s device ttype params).2 device
        = queueOf s device ++
          [{ id := freshId s.nextId, type := ttype,
             params := if params = "" then none else some params },
           { id := freshId (s.nextId + 1), type := "CaptureImage", params := none }] ∧
      freshId s.nextId ≠ freshId (s.nextId + 1)) ∧
    (ttype ∈ exemptTypes →
      queueOf (add_task true s device ttype params).2 device
        = queueOf s device ++
          [{ id := freshId s.nextId, type := ttype,
             params := if params = "" then none else some params }]) ∧
    "CaptureImage" ∈ exemptTypes ∧
    (∀ sender b, dictGet s.bindings sender = some b →
      queueOf (maa_stop s sender) b.device_id
        = { id := freshId s.nextId, type := "StopTask", params := none }
            :: queueOf s b.device_id) := by
  refine ⟨?_, ?_, by decide, ?_⟩
  · intro hne
    have hc : (true && !(exemptTypes.contains ttype)) = true := by
      simp [hne]
    refine ⟨queueOf_add_task_inject hc s device params, ?_⟩
    intro h
    have h2 := freshId_injective h
    omega
  · intro hmem
    have hc : (true && !(exemptTypes.contains ttype)) = false := by
      simp [hmem]
    exact queueOf_add_task_plain hc s device params
  · intro sender b hb
    simp only [maa_stop, hb]
    unfold queueOf
    simp [dictGet_dictSet_self]

/-- Witness for the amended C3: enqueuing `Combat` on the sample state
with the policy on yields the task plus an injected screenshot task. -/
theorem C3_auto_screenshot_amended_w :
    ("Combat" : String) ∉ exemptTypes ∧
    queueOf (add_task true sampleBound "D" "Combat" "").2 "D"
      = [{ id := freshId 0, type := "Combat", params := none },
         { id := freshId 1, type := "CaptureImage", params := none }] :=
  ⟨by decide, by
    rw [((C3_auto_screenshot_amended sampleBound "D" "Combat" "").1 (by decide)).1]
    decide⟩

/-- Claim C4: rebind rejection. Binding fails with
`AlreadyBoundByOperator` when the sender already has a binding and with
`AlreadyBoundByDevice` when the device is already in the inverse index,
and in both failing cases the returned state is exactly the input state;
in a consistent state the device's claimant is necessarily a different
operator. -/
theorem C4_rebind_rejection (s : PluginState) (sender device umo : String) :
    ((lookupByOperator s sender).isSome →
      maa_bind s sender device umo = (BindOutcome.alreadyBoundByOperator, s)) ∧
    (lookupByOperator s sender = none → (lookupByDevice s device).isSome →
      maa_bind s sender device umo = (BindOutcome.alreadyBoundByDevice, s)) ∧
    (Consistent s → lookupByOperator s sender = none →
      ∀ claimant, lookupByDevice s device = some claimant → claimant ≠ sender) := by
  refine ⟨?_, ?_, ?_⟩
  · intro h
    exact maa_bind_operator_bound h device umo
  · intro h1 h2
    exact maa_bind_device_bound h1 h2 umo
  · intro hC h1 claimant hcl hcs
    obtain ⟨b, hb, _⟩ := hC.2 device claimant hcl
    rw [hcs] at hb
    rw [h1] at hb
    exact absurd hb (by simp)

/-- Witness for C4: on the sample state the already-bound operator `"U"`
is rejected and the state is returned unchanged. -/
theorem C4_rebind_rejection_w :
    (lookupByOperator sampleBound "U").isSome = true ∧
    maa_bind sampleBound "U" "D2" "M2"
      = (BindOutcome.alreadyBoundByOperator, sampleBound) :=
  ⟨by decide, (C4_rebind_rejection sampleBound "U" "D2" "M2").1 (by decide)⟩

/-- Claim C5: acknowledgment is idempotent. Acknowledging the same
device/task pair twice yields exactly the state of acknowledging once;
each call puts the task id into the device's executed set (a no-op when
already present) and removes every queued task bearing that id, wherever
it sits in the queue. -/
theorem C5_acknowledge_idempotent (s : PluginState) (device task : String) :
    acknowledge (acknowledge s device task) device task
      = acknowledge s device task ∧
    task ∈ executedOf (acknowledge s device task) device ∧
    queueOf (acknowledge s device task) device
      = (queueOf s device).filter (fun tk => tk.id != task) := by
  refine ⟨acknowledge_idem s device task, ?_, queueOf_acknowledge_self s device task⟩
  rw [executedOf_acknowledge_self]
  exact self_mem_insertSet _ task

/-- Claim C6: protocol errors mutate nothing. An unparsable body or an
empty `device` make `getTask` answer 400 with an empty task list and the
state unchanged; an unparsable body or an empty `device`/`task` make
`reportStatus` answer 400 with no other event and the state unchanged. -/
theorem C6_protocol_errors_no_mutation (s : PluginState) (now : Nat)
    (g : GetTaskReq) (r : ReportReq) (decodeOk sendOk : Bool) :
    (handle_get_task none now s
      = { status := 400, tasks := [], logs := [], state := s }) ∧
    (g.device = "" → handle_get_task (some g) now s
      = { status := 400, tasks := [], logs := [], state := s }) ∧
    (handle_report_status none decodeOk sendOk s = (s, [Event.respond 400])) ∧
    (r.device = "" ∨ r.task = "" → handle_report_status (some r) decodeOk sendOk s
      = (s, [Event.respond 400])) := by
  refine ⟨rfl, ?_, rfl, ?_⟩
  · intro h
    simp [handle_get_task, h]
  · intro h
    simp [handle_report_status, h]

/-- Witness for C6: a concrete empty-device poll and an empty-task report
on the sample state both answer 400 and leave the state untouched. -/
theorem C6_protocol_errors_no_mutation_w :
    ({ device := "", user := "u" } : GetTaskReq).device = "" ∧
    handle_get_task (some { device := "", user := "u" }) 7 sampleBound
      = { status := 400, tasks := [], logs := [], state := sampleBound } ∧
    handle_report_status
        (some { device := "D", task := "", status := "", payload := "" })
        true true sampleBound
      = (sampleBound, [Event.respond 400]) :=
  ⟨rfl,
   (C6_protocol_errors_no_mutation sampleBound 7 { device := "", user := "u" }
      { device := "D", task := "", status := "", payload := "" } true true).2.1 rfl,
   (C6_protocol_errors_no_mutation sampleBound 7 { device := "", user := "u" }
      { device := "D", task := "", status := "", payload := "" } true true).2.2.2
      (Or.inr rfl)⟩

/-- Claim C7 (counterexample): the claim says the HTTP response is
returned without waiting for the channel send. On a concrete bound state
and valid report, the handler's trace performs the channel send strictly
before the respond event — the source awaits `send_message` before
returning the 200 response — refuting the claimed ordering. -/
theorem C7_async_notification_counterexample :
    sendBeforeRespond (handle_report_status
      (some { device := "D", task := "T1", status := "done", payload := "" })
      true true sampleBound).2 = true := by
  decide

/-- Claim C7 (amended): `reportStatus` awaits the notification send before
answering: in every execution trace the HTTP respond event is the final
event, so every channel send precedes the response; only the deferred
temp-file deletion is scheduled without being awaited. -/
theorem C7_async_notification_amended (req : Option ReportReq)
    (decodeOk sendOk : Bool) (s : PluginState) :
    ∃ evs code, (handle_report_status req decodeOk sendOk s).2
        = evs ++ [Event.respond code] ∧
      ∀ e ∈ evs, isRespond e = false := by
  cases req with
  | none =>
    refine ⟨[], 400, rfl, ?_⟩
    intro e he
    exact absurd he (List.not_mem_nil e)
  | some r =>
    simp only [handle_report_status]
    split
    · refine ⟨[], 400, rfl, ?_⟩
      intro e he
      exact absurd he (List.not_mem_nil e)
    · exact ⟨notify_events decodeOk sendOk (acknowledge s r.device r.task) r, 200,
        rfl, notify_events_no_respond decodeOk sendOk _ r⟩

/-- Witness for the amended C7 at a concrete input. -/
theorem C7_async_notification_amended_w :
    ∃ evs code, (handle_report_status
        (some { device := "D", task := "T1", status := "done", payload := "" })
        true true sampleBound).2 = evs ++ [Event.respond code] ∧
      ∀ e ∈ evs, isRespond e = false :=
  C7_async_notification_amended
    (some { device := "D", task := "T1", status := "done", payload := "" })
    true true sampleBound

/-- Claim C8 (counterexample): the claim says the deferred deletion of the
temporary image file is scheduled regardless of whether the channel send
succeeded. When the send raises, `_send_screenshot` has already written
the temp file and attempted the send, yet no deletion is scheduled — the
`asyncio.create_task` line is only reached after a successful `await`. -/
theorem C8_temp_cleanup_counterexample :
    Event.writeTemp ∈ (send_screenshot true false "M" "payload" "msg").1 ∧
    Event.sendImage "M" "msg" ∈ (send_screenshot true false "M" "payload" "msg").1 ∧
    Event.scheduleDelete deleteDelay ∉ (send_screenshot true false "M" "payload" "msg").1 := by
  decide

/-- Claim C8 (amended): when the image notification succeeds, release of
the temporary file is scheduled after the fixed 30-unit default delay;
when the channel send raises, the deletion is never scheduled (the
handler falls back to a text notification and the file leaks); and the
deferred deletion itself never surfaces an error — in particular it
tolerates the file having already been removed. -/
theorem C8_temp_cleanup_amended (umo payload message : String)
    (fileExists unlinkRaises : Bool) :
    Event.scheduleDelete deleteDelay ∈ (send_screenshot true true umo payload message).1 ∧
    deleteDelay = 30 ∧
    Event.scheduleDelete deleteDelay ∉ (send_screenshot true false umo payload message).1 ∧
    (delete_temp_file fileExists unlinkRaises).2 = none ∧
    (delete_temp_file false unlinkRaises).1 = false := by
  refine ⟨?_, rfl, ?_, ?_, ?_⟩
  · simp [send_screenshot]
  · simp [send_screenshot]
  · cases fileExists <;> cases unlinkRaises <;> rfl
  · cases unlinkRaises <;> rfl

/-- Claim C9: the payload image threshold. The heuristic of line 204
depends only on the payload's length, with fixed threshold 100: on a
valid report for a bound device with a usable channel, a payload strictly
longer than 100 characters produces an image notification and no plain
text notification, while a payload of at most 100 characters (including
an absent one) produces a text-only notification and no image events. -/
theorem C9_payload_image_threshold :
    (∀ p : String, treatAsImage p = decide (100 < p.length)) ∧
    (∀ (s : PluginState) (r : ReportReq) (sender : String) (b : Binding),
      r.device ≠ "" → r.task ≠ "" →
      dictGet s.device_to_sender r.device = some sender → sender ≠ "" →
      dictGet s.bindings sender = some b → b.umo ≠ "" →
      ((100 < r.payload.length →
          (handle_report_status (some r) true true s).2.any isImageSend = true ∧
          (handle_report_status (some r) true true s).2.any isTextSend = false) ∧
       (r.payload.length ≤ 100 →
          (handle_report_status (some r) true true s).2.any isTextSend = true ∧
          (handle_report_status (some r) true true s).2.any isImageSend = false))) := by
  have hchar : ∀ p : String, treatAsImage p = decide (100 < p.length) := by
    intro p
    by_cases h : 100 < p.length
    · have hne : p ≠ "" := by
        intro hp
        rw [hp] at h
        simp at h
      simp [treatAsImage, h, hne]
    · simp [treatAsImage, h]
  refine ⟨hchar, ?_⟩
  intro s r sender b hd ht hds hsne hb humo
  have hds2 : dictGet (acknowledge s r.device r.task).device_to_sender r.device
      = some sender := by
    rw [acknowledge_device_to_sender]
    exact hds
  have hb2 : dictGet (acknowledge s r.device r.task).bindings sender = some b := by
    rw [acknowledge_bindings]
    exact hb
  have hevs := handle_report_status_events true true s hd ht
  constructor
  · intro hlen
    have himg : treatAsImage r.payload = true := by
      rw [hchar]
      simpa using hlen
    rw [hevs, notify_events_image hds2 hsne hb2 humo himg]
    constructor <;> simp [isImageSend, isTextSend]
  · intro hlen
    have himg : treatAsImage r.payload = false := by
      rw [hchar]
      simpa using Nat.not_lt.mpr hlen
    rw [hevs, notify_events_text true true hds2 hsne hb2 humo himg]
    constructor <;> simp [isImageSend, isTextSend]

/-- Witness for C9: a 101-character payload on the sample bound state
produces an image notification. -/
theorem C9_payload_image_threshold_w :
    100 < longPayload.length ∧
    (handle_report_status
        (some { device := "D", task := "T", status := "ok", payload := longPayload })
        true true sampleBound).2.any isImageSend = true :=
  ⟨by decide,
   ((C9_payload_image_threshold.2 sampleBound
      { device := "D", task := "T", status := "ok", payload := longPayload } "U"
      { device_id := "D", user_id := "U", umo := "M" }
      (by decide) (by decide) (by decide) (by decide) (by decide) (by decide)).1
      (by decide)).1⟩

/-- Claim C10: `getTask` ignores the request's `user` field. Two polls
differing only in `user` (including an empty one) produce the same HTTP
status, the same task list, and the same post-state; `user` only appears
in a debug log line. -/
theorem C10_get_task_user_independent (s : PluginState) (now : Nat)
    (d u1 u2 : String) :
    (handle_get_task (some { device := d, user := u1 }) now s).status
      = (handle_get_task (some { device := d, user := u2 }) now s).status ∧
    (handle_get_task (some { device := d, user := u1 }) now s).tasks
      = (handle_get_task (some { device := d, user := u2 }) now s).tasks ∧
    (handle_get_task (some { device := d, user := u1 }) now s).state
      = (handle_get_task (some { device := d, user := u2 }) now s).state := by
  by_cases hd : d = ""
  · simp [handle_get_task, hd]
  · rcases hds : dictGet s.device_to_sender d with _ | sid
    · simp [handle_get_task, hd, hds]
    · by_cases hs : sid = ""
      · simp [handle_get_task, hd, hds, hs]
      · simp [handle_get_task, hd, hds, hs]
